import Mathlib

/-!
Verification development for the Script Ops drafting workspace.

The JavaScript sources are shallowly embedded as Lean definitions:

* Version History & Selection Engine (src/public/main.js):
  buildPrompt, createPolishedDraft, the polish-button handler, and the
  Select / Rollback click handlers.
* Phase Gate State Machine (src/static/main.js): phases, canAdvance
  (the switch inside enforceDecision), changePhase.
* Token Cost Estimator (src/static/main.js): calculateCost, the entry
  list pushed by simulateApiCall, and the totals loop of renderTokens.
* Task Queue Simulator (src/static/main.js): addQueueItem,
  updateQueueStatus, and the derived busy indicator of renderQueue.
* Persistence endpoints (src/static/main.js Express part): readState
  and the POST /api/state handler.

External effects (crypto.randomUUID, Date, setTimeout, fs, JSON.parse)
are passed in as explicit arguments so that the state transitions stay
pure and executable.
-/

/-- A donor (rejected) style option attached to a beat. -/
structure DonorOption where
  id : String
  name : String
  text : String
deriving Repr, DecidableEq

/-- One generated draft version of a beat. -/
structure Version where
  id : String
  text : String
  sourceOption : String
  instruction : String
  timestamp : String
  prompt : String
deriving Repr, DecidableEq

/-- A narrative beat with its baseline, donor options, version history
and current selection. -/
structure Beat where
  id : String
  title : String
  baseline : String
  rejectedOptions : List DonorOption
  versions : List Version
  selectedVersionId : Option String
deriving Repr, DecidableEq

/-- Embedding of buildPrompt from src/public/main.js (lines 43-54):
the donor text or its sentinel, the lookup of the selected version, and
the six lines joined by a newline. -/
def buildPrompt (beat : Beat) (donorOption : Option DonorOption) (instruction : String) : String :=
  let donorText :=
    match donorOption with
    | some d => d.name ++ ": " ++ d.text
    | none => "Use baseline tone only."
  let selectedVersion := beat.versions.find? (fun v => beat.selectedVersionId == some v.id)
  String.intercalate "\n" [
    "You are polishing a beat while preserving meaning and structure.",
    "Current selected draft: " ++
      (match selectedVersion with
       | some v => v.text
       | none => beat.baseline),
    "Baseline reference: " ++ beat.baseline,
    "Style donor: " ++ donorText,
    "Operator instruction: " ++ (if instruction = "" then "None provided" else instruction),
    "Return a polished draft that keeps the narrative order but adapts tone/style from the donor and instruction."]

/-- Embedding of createPolishedDraft from src/public/main.js (lines
56-69).  The fresh identifier produced by crypto.randomUUID() and the
timestamp produced by new Date().toISOString() are passed in as
explicit arguments. -/
def createPolishedDraft (beat : Beat) (donorOption : Option DonorOption) (instruction : String)
    (freshId : String) (timestamp : String) : Version :=
  let prompt := buildPrompt beat donorOption instruction
  let donorLabel :=
    match donorOption with
    | some d => d.name
    | none => "baseline"
  let text :=
    "Polished draft using " ++ donorLabel ++ " with instruction \"" ++
    (if instruction = "" then "None" else instruction) ++ "\".\n\n" ++
    beat.baseline ++ "\n\nStyle cues: " ++
    (match donorOption with
     | some d => d.text
     | none => "Baseline tone") ++
    "\nInstruction applied: " ++ (if instruction = "" then "None provided" else instruction)
  { id := freshId
    text := text
    sourceOption := donorLabel
    instruction := if instruction = "" then "None provided" else instruction
    timestamp := timestamp
    prompt := prompt }

/-- Embedding of the polish-button click handler of renderActiveBeat
(src/public/main.js lines 186-194): create the draft, push it onto
beat.versions and select it. -/
def polishClick (beat : Beat) (donorOption : Option DonorOption) (instruction : String)
    (freshId : String) (timestamp : String) : Beat :=
  let version := createPolishedDraft beat donorOption instruction freshId timestamp
  { beat with
    versions := beat.versions ++ [version]
    selectedVersionId := some version.id }

/-- Embedding of the Select / Rollback click handlers of
renderVersionList (src/public/main.js lines 113-132): both set
beat.selectedVersionId to the clicked version's id and touch nothing
else.  The clicked version is one of the cards rendered from
beat.versions. -/
def selectClick (beat : Beat) (version : Version) : Beat :=
  { beat with selectedVersionId := some version.id }

/-- Error taxonomy of the spec that the selection engine can raise. -/
inductive SelectError where
  | notFound
deriving Repr, DecidableEq

/-- Modelled from the spec: the standalone selectVersion(beat,
versionId) operation of the Version History & Selection Engine is not a
named function in src/ (only its callers, the Select / Rollback click
handlers, appear there, and they only ever pass ids of versions already
on the beat).  Following the spec's words it sets selectedVersionId
when the id belongs to beat.versions and fails with NotFoundError
otherwise, leaving the beat unchanged. -/
def selectVersion (beat : Beat) (versionId : String) : Except SelectError Beat :=
  if beat.versions.any (fun v => v.id == versionId) then
    Except.ok { beat with selectedVersionId := some versionId }
  else
    Except.error SelectError.notFound

/-- One checkpoint of the Phase Gate (src/static/main.js lines 130-135). -/
structure Phase where
  id : String
  label : String
  hint : String
deriving Repr, DecidableEq

/-- The fixed ordered phase list (src/static/main.js lines 130-135). -/
def phases : List Phase := [
  { id := "filters", label := "Filters", hint := "Select at least one filter to proceed." },
  { id := "toolkit", label := "Toolkit", hint := "Pick a single toolkit before continuing." },
  { id := "variants", label := "Variant approval", hint := "Approve a variant for this execution." },
  { id := "rollback", label := "Rollback", hint := "Confirm the checkpoint before continuing." }]

/-- The Decision Set (src/static/main.js lines 144-149).  The JS Set of
filter ids is embedded as a duplicate-free list. -/
structure Decisions where
  filters : List String
  toolkit : String
  variant : String
  rollback : Bool
deriving Repr, DecidableEq

/-- Session state of the Phase Gate: the integer phase index plus the
Decision Set (src/static/main.js lines 142-156). -/
structure GateState where
  phaseIndex : Nat
  decisions : Decisions
deriving Repr, DecidableEq

/-- The per-phase predicate: the switch inside enforceDecision
(src/static/main.js lines 188-203) as a function of the phase id and
the Decision Set.  Boolean(s) on a JS string is true iff the string is
non-empty; set.size > 0 becomes a non-emptiness test on the list. -/
def canAdvance (phaseId : String) (decisions : Decisions) : Bool :=
  match phaseId with
  | "filters" => decide (0 < decisions.filters.length)
  | "toolkit" => decisions.toolkit != ""
  | "variants" => decisions.variant != ""
  | "rollback" => decisions.rollback
  | _ => true

/-- Embedding of changePhase (src/static/main.js lines 208-212):
Math.min(phases.length - 1, Math.max(0, phaseIndex + delta)) becomes
clamping in the integers, and the clamped value (which is never
negative) is stored back as the index. -/
def changePhase (delta : Int) (s : GateState) : GateState :=
  let nextIndex := min ((phases.length : Int) - 1) (max 0 ((s.phaseIndex : Int) + delta))
  { s with phaseIndex := nextIndex.toNat }

/-- Embedding of handleFilterChange (src/static/main.js lines 214-222)
on the Decision Set: add the value on check, delete it on uncheck,
keeping the JS Set semantics (no duplicates). -/
def handleFilterChange (value : String) (checked : Bool) (d : Decisions) : Decisions :=
  if checked then
    { d with filters := if value ∈ d.filters then d.filters else d.filters ++ [value] }
  else
    { d with filters := d.filters.filter (fun v => v ≠ value) }

/-- Per-token prices (src/static/main.js lines 137-140), as exact
rationals: 0.0015 / 1000 per input token, 0.002 / 1000 per output
token. -/
def tokenPricingInput : ℚ := (15 : ℚ) / 10000000

/-- Output-token price, 0.002 / 1000 as an exact rational. -/
def tokenPricingOutput : ℚ := (2 : ℚ) / 1000000

/-- The cost breakdown returned by calculateCost. -/
structure CostBreakdown where
  inputCost : ℚ
  outputCost : ℚ
  total : ℚ
deriving Repr, DecidableEq

/-- Embedding of calculateCost (src/static/main.js lines 300-308). -/
def calculateCost (inputTokens outputTokens : Nat) : CostBreakdown :=
  let inputCost := (inputTokens : ℚ) * tokenPricingInput
  let outputCost := (outputTokens : ℚ) * tokenPricingOutput
  { inputCost := inputCost
    outputCost := outputCost
    total := inputCost + outputCost }

/-- A recorded token entry (the object pushed by simulateApiCall,
src/static/main.js line 344). -/
structure TokenEntry where
  inputTokens : Nat
  outputTokens : Nat
  cost : CostBreakdown
deriving Repr, DecidableEq

/-- The recording step of simulateApiCall (src/static/main.js lines
342-344): compute the cost for the given token counts and push the
entry.  The heuristic/random sourcing of the counts is an external
input here, so the counts are arguments. -/
def recordCall (inputTokens outputTokens : Nat) (tokens : List TokenEntry) : List TokenEntry :=
  tokens ++ [{ inputTokens := inputTokens, outputTokens := outputTokens,
               cost := calculateCost inputTokens outputTokens }]

/-- Running total of input tokens, as accumulated by the forEach loop
of renderTokens (src/static/main.js lines 315-329). -/
def totalInput (tokens : List TokenEntry) : Nat :=
  tokens.foldl (fun acc e => acc + e.inputTokens) 0

/-- Running total of output tokens (renderTokens). -/
def totalOutput (tokens : List TokenEntry) : Nat :=
  tokens.foldl (fun acc e => acc + e.outputTokens) 0

/-- Running total cost (renderTokens accumulates cost.total). -/
def totalCost (tokens : List TokenEntry) : ℚ :=
  tokens.foldl (fun acc e => acc + e.cost.total) 0

/-- Status of a simulated queue task. -/
inductive QStatus where
  | waiting
  | running
  | done
deriving Repr, DecidableEq

/-- Rank of a status along the waiting → running → done lifecycle. -/
def QStatus.rank : QStatus → Nat
  | QStatus.waiting => 0
  | QStatus.running => 1
  | QStatus.done => 2

/-- A queue item (the task object of addQueueItem, src/static/main.js
line 369). -/
structure QTask where
  id : String
  label : String
  status : QStatus
deriving Repr, DecidableEq

/-- A scheduled setTimeout callback of addQueueItem: at fireAt
milliseconds it calls updateQueueStatus taskId newStatus. -/
structure TimerEvent where
  fireAt : Nat
  taskId : String
  newStatus : QStatus
deriving Repr, DecidableEq

/-- Embedding of addQueueItem (src/static/main.js lines 368-376) at
time now: the fresh identifier from crypto.randomUUID() is an explicit
argument; the task starts waiting and is appended; the two setTimeout
calls become timer events at now + 300 and now + 2600. -/
def addQueueItem (now : Nat) (freshId : String) (label : String) (queue : List QTask) :
    List QTask × List TimerEvent :=
  let task : QTask := { id := freshId, label := label, status := QStatus.waiting }
  (queue ++ [task],
   [{ fireAt := now + 300, taskId := freshId, newStatus := QStatus.running },
    { fireAt := now + 2600, taskId := freshId, newStatus := QStatus.done }])

/-- Embedding of updateQueueStatus (src/static/main.js lines 378-383):
state.queue.find locates the first task with the given id and its
status is overwritten; an unknown id is a no-op. -/
def updateQueueStatus (id : String) (status : QStatus) : List QTask → List QTask
  | [] => []
  | t :: ts =>
      if t.id = id then { t with status := status } :: ts
      else t :: updateQueueStatus id status ts

/-- The derived global busy indicator of renderQueue (src/static/main.js
line 390): some task is running or waiting. -/
def queueBusy (queue : List QTask) : Bool :=
  queue.any (fun task => task.status == QStatus.running || task.status == QStatus.waiting)

/-- A JSON-like value, enough to model the request body and the stored
workspace document of the Express endpoints. -/
inductive JVal where
  | jnull
  | jbool (b : Bool)
  | jnum (n : Int)
  | jstr (s : String)
  | jarr (elems : List JVal)
  | jobj (fields : List (String × JVal))

/-- JS truthiness of the destructured beats field: an absent field
(undefined), null, false, 0 and the empty string are falsy; every
object, in particular every array, is truthy. -/
def jsTruthy : Option JVal → Bool
  | none => false
  | some JVal.jnull => false
  | some (JVal.jbool b) => b
  | some (JVal.jnum n) => n != 0
  | some (JVal.jstr s) => s != ""
  | some (JVal.jarr _) => true
  | some (JVal.jobj _) => true

/-- Array.isArray on the destructured field. -/
def jsIsArray : Option JVal → Bool
  | some (JVal.jarr _) => true
  | _ => false

/-- The stored workspace document: a beats array (src/static/main.js
writeState always stores an object with the single beats field). -/
structure StoredDoc where
  beats : List JVal

/-- An HTTP response of the state endpoints: status code and whether
the JSON body reported success or the validation error message. -/
structure HttpResponse where
  status : Nat
  ok : Bool
deriving Repr, DecidableEq

/-- Embedding of the POST /api/state handler (src/static/main.js lines
456-463): destructure beats from the body, reject with 400 when
!beats || !Array.isArray(beats), otherwise writeState the whole
document.  The handler returns the response together with the stored
document after the call. -/
def postStateHandler (body : List (String × JVal)) (stored : StoredDoc) :
    HttpResponse × StoredDoc :=
  let beats := body.lookup "beats"
  if !jsTruthy beats || !jsIsArray beats then
    ({ status := 400, ok := false }, stored)
  else
    match beats with
    | some (JVal.jarr elems) => ({ status := 200, ok := true }, { beats := elems })
    | _ => ({ status := 400, ok := false }, stored)

/-- Embedding of readState (src/static/main.js lines 439-445).  The
file system and JSON.parse are external collaborators: the argument
file is none when fs.existsSync is false and some raw otherwise, and
parse stands for JSON.parse, producing a document or a parse error.
raw || defaultStateLiteral replaces an empty file by the literal
fallback text before parsing. -/
def readState (parse : String → Except String StoredDoc) (file : Option String) :
    Except String StoredDoc :=
  match file with
  | none => Except.ok { beats := [] }
  | some raw => parse (if raw = "" then "\x7b\"beats\": []\x7d" else raw)

/-- The GET /api/state handler (src/static/main.js lines 451-454) just
serves whatever readState produced. -/
def getStateHandler (parse : String → Except String StoredDoc) (file : Option String) :
    Except String StoredDoc :=
  readState parse file

/-- The text the prompt shows as the current draft: the text of the
version referenced by selectedVersionId when such a version exists in
beat.versions, else the baseline. -/
def selectedDraftText (beat : Beat) : String :=
  match beat.versions.find? (fun v => beat.selectedVersionId == some v.id) with
  | some v => v.text
  | none => beat.baseline

/-- Sample version used to exercise the selection engine. -/
def sampleVersionA : Version :=
  { id := "vA", text := "draft A", sourceOption := "baseline",
    instruction := "None provided", timestamp := "2024-01-01T00:00:00.000Z", prompt := "pA" }

/-- A second, more recent sample version. -/
def sampleVersionB : Version :=
  { id := "vB", text := "draft B", sourceOption := "Donor",
    instruction := "tighten", timestamp := "2024-01-02T00:00:00.000Z", prompt := "pB" }

/-- Sample beat with two versions, the most recent one selected. -/
def sampleBeat : Beat :=
  { id := "b1", title := "Opening", baseline := "Intro text",
    rejectedOptions := [], versions := [sampleVersionA, sampleVersionB],
    selectedVersionId := some "vB" }

/-- Sample beat of the scenario in the spec: baseline "Intro text", no
options, no versions, nothing selected. -/
def introBeat : Beat :=
  { id := "b1", title := "Opening", baseline := "Intro text",
    rejectedOptions := [], versions := [], selectedVersionId := none }

/-- C1: selectVersion(beat, id) sets beat.selectedVersionId to id
whenever id belongs to beat.versions (including ids of versions other
than the most recent, which implements rollback), and fails with
NotFoundError leaving the beat, in particular selectedVersionId,
unchanged when id does not belong to beat.versions. -/
theorem c1_selectVersion_sets_or_notFound (beat : Beat) (versionId : String) :
    (versionId ∈ beat.versions.map Version.id →
      selectVersion beat versionId =
        Except.ok { beat with selectedVersionId := some versionId }) ∧
    (versionId ∉ beat.versions.map Version.id →
      selectVersion beat versionId = Except.error SelectError.notFound) := by
  constructor
  · intro h
    obtain ⟨v, hv, hvid⟩ := List.mem_map.mp h
    have hany : beat.versions.any (fun v => v.id == versionId) = true :=
      List.any_eq_true.mpr ⟨v, hv, by simp [hvid]⟩
    simp [selectVersion, hany]
  · intro h
    have hany : beat.versions.any (fun v => v.id == versionId) = false := by
      rw [List.any_eq_false]
      intro v hv hvid
      exact h (List.mem_map.mpr ⟨v, hv, by simpa using hvid⟩)
    simp [selectVersion, hany]

/-- Witness for C1: on the sample beat, selecting the older version vA
(a rollback) succeeds and selects it, and selecting an id that is on no
version fails with NotFoundError. -/
theorem c1_selectVersion_sets_or_notFound_witness :
    selectVersion sampleBeat "vA" =
      Except.ok { sampleBeat with selectedVersionId := some "vA" } ∧
    selectVersion sampleBeat "missing" = Except.error SelectError.notFound :=
  ⟨(c1_selectVersion_sets_or_notFound sampleBeat "vA").1 (by decide),
   (c1_selectVersion_sets_or_notFound sampleBeat "missing").2 (by decide)⟩

/-- C2: buildPrompt is the newline-joined concatenation of (a) the
fixed system directive, (b) the selected version's text if one exists
in beat.versions else the baseline, (c) the baseline verbatim, (d) the
donor's name and text when a donor is given, else the sentinel "Use
baseline tone only.", (e) the instruction when non-empty else the
sentinel "None provided", and the fixed closing directive; and on the
beat with baseline "Intro text", no donor and empty instruction, the
prompt contains the literal text "Intro text" and the sentinel "Use
baseline tone only.". -/
theorem c2_buildPrompt_concatenation :
    (∀ (beat : Beat) (donorOption : Option DonorOption) (instruction : String),
      buildPrompt beat donorOption instruction =
        String.intercalate "\n" [
          "You are polishing a beat while preserving meaning and structure.",
          "Current selected draft: " ++ selectedDraftText beat,
          "Baseline reference: " ++ beat.baseline,
          "Style donor: " ++
            (match donorOption with
             | some d => d.name ++ ": " ++ d.text
             | none => "Use baseline tone only."),
          "Operator instruction: " ++
            (if instruction = "" then "None provided" else instruction),
          "Return a polished draft that keeps the narrative order but adapts tone/style from the donor and instruction."]) ∧
    (∃ pre mid post,
      buildPrompt introBeat none "" =
        pre ++ "Intro text" ++ mid ++ "Use baseline tone only." ++ post) := by
  constructor
  · intro beat donorOption instruction
    rfl
  · exact ⟨"You are polishing a beat while preserving meaning and structure.\nCurrent selected draft: ",
           "\nBaseline reference: Intro text\nStyle donor: ",
           "\nOperator instruction: None provided\nReturn a polished draft that keeps the narrative order but adapts tone/style from the donor and instruction.",
           by rfl⟩

/-- C3: after createPolishedDraft and the polish-button handler's
append-and-select, beat.versions has grown by exactly one element (the
new version appended), beat.selectedVersionId equals the new version's
id, and the new version's prompt field equals buildPrompt applied to
the same beat, donor option and instruction as at creation time. -/
theorem c3_polishClick_appends_and_selects (beat : Beat) (donorOption : Option DonorOption)
    (instruction freshId timestamp : String) :
    (polishClick beat donorOption instruction freshId timestamp).versions =
      beat.versions ++ [createPolishedDraft beat donorOption instruction freshId timestamp] ∧
    (polishClick beat donorOption instruction freshId timestamp).versions.length =
      beat.versions.length + 1 ∧
    (polishClick beat donorOption instruction freshId timestamp).selectedVersionId =
      some (createPolishedDraft beat donorOption instruction freshId timestamp).id ∧
    (createPolishedDraft beat donorOption instruction freshId timestamp).prompt =
      buildPrompt beat donorOption instruction := by
  refine ⟨rfl, ?_, rfl, rfl⟩
  simp [polishClick]

/-- C4: for every integer delta, changePhase sets the phase index to
clamp(index + delta, 0, N-1) with N the number of phases, so the index
always stays within [0, N-1]; the transition is the same whatever the
Decision Set holds, so backward movement is always permitted and
changePhase itself never consults canAdvance. -/
theorem c4_changePhase_clamps (delta : Int) (s : GateState) :
    ((changePhase delta s).phaseIndex : Int) =
      min ((phases.length : Int) - 1) (max 0 ((s.phaseIndex : Int) + delta)) ∧
    (changePhase delta s).phaseIndex ≤ phases.length - 1 ∧
    (∀ d : Decisions,
      (changePhase delta { s with decisions := d }).phaseIndex =
        (changePhase delta s).phaseIndex) := by
  have hlen : phases.length = 4 := rfl
  refine ⟨?_, ?_, fun d => rfl⟩
  · simp only [changePhase, hlen]
    omega
  · simp only [changePhase, hlen]
    omega

/-- Witness for C4: from index 3 a forward move stays at the last
phase, and from index 0 a backward move stays at 0, whatever the
decisions; here with the empty Decision Set. -/
theorem c4_changePhase_clamps_witness :
    ((changePhase 5 { phaseIndex := 3, decisions := ⟨[], "", "", false⟩ }).phaseIndex : Int) =
      min ((phases.length : Int) - 1) (max 0 ((3 : Int) + 5)) ∧
    (changePhase (-2) { phaseIndex := 0, decisions := ⟨[], "", "", false⟩ }).phaseIndex ≤
      phases.length - 1 :=
  ⟨(c4_changePhase_clamps 5 { phaseIndex := 3, decisions := ⟨[], "", "", false⟩ }).1,
   (c4_changePhase_clamps (-2) { phaseIndex := 0, decisions := ⟨[], "", "", false⟩ }).2.1⟩

/-- C5: canAdvance holds for the filters phase iff the filter set is
non-empty (so toggling the last filter off flips it back to false),
for the toolkit phase iff the toolkit selection is non-empty, for the
variant-approval phase iff the approved-variant id is non-empty, for
the rollback phase iff the rollback boolean is true, and vacuously for
any phase id that is not one of the four known phases. -/
theorem c5_canAdvance_per_phase (d : Decisions) :
    (canAdvance "filters" d = true ↔ d.filters ≠ []) ∧
    (canAdvance "toolkit" d = true ↔ d.toolkit ≠ "") ∧
    (canAdvance "variants" d = true ↔ d.variant ≠ "") ∧
    (canAdvance "rollback" d = true ↔ d.rollback = true) ∧
    (∀ phaseId, phaseId ∉ phases.map Phase.id → canAdvance phaseId d = true) ∧
    (∀ v, canAdvance "filters" (handleFilterChange v false { d with filters := [v] }) = false) := by
  refine ⟨?_, ?_, ?_, ?_, ?_, ?_⟩
  · simp [canAdvance, List.length_pos]
  · simp [canAdvance]
  · simp [canAdvance]
  · simp [canAdvance]
  · intro phaseId hphase
    have hne : phaseId ≠ "filters" ∧ phaseId ≠ "toolkit" ∧
        phaseId ≠ "variants" ∧ phaseId ≠ "rollback" := by
      refine ⟨?_, ?_, ?_, ?_⟩ <;> intro hEq <;> exact hphase (by simp [phases, hEq])
    unfold canAdvance
    split
    · exact absurd rfl hne.1
    · exact absurd rfl hne.2.1
    · exact absurd rfl hne.2.2.1
    · exact absurd rfl hne.2.2.2
    · rfl
  · intro v
    simp [canAdvance, handleFilterChange]

/-- Witness for C5: with one selected filter the filters phase can
advance, an unknown phase id is vacuously satisfied, and toggling the
lone filter off flips the filters phase back to not-advanceable. -/
theorem c5_canAdvance_per_phase_witness :
    canAdvance "filters" ⟨["safety"], "", "", false⟩ = true ∧
    canAdvance "transcripts" ⟨["safety"], "", "", false⟩ = true ∧
    canAdvance "filters"
      (handleFilterChange "safety" false
        { (⟨["safety"], "", "", false⟩ : Decisions) with filters := ["safety"] }) = false :=
  ⟨(c5_canAdvance_per_phase ⟨["safety"], "", "", false⟩).1.mpr (by decide),
   (c5_canAdvance_per_phase ⟨["safety"], "", "", false⟩).2.2.2.2.1 "transcripts" (by decide),
   (c5_canAdvance_per_phase ⟨["safety"], "", "", false⟩).2.2.2.2.2 "safety"⟩

/-- updateQueueStatus on a queue ending in a task bearing the target id
rewrites that task's status when no earlier task carries the id. -/
theorem updateQueueStatus_append_of_fresh (id : String) (st : QStatus)
    (queue : List QTask) (t : QTask) (hid : t.id = id)
    (hfresh : id ∉ queue.map QTask.id) :
    updateQueueStatus id st (queue ++ [t]) = queue ++ [{ t with status := st }] := by
  induction queue with
  | nil => simp [updateQueueStatus, hid]
  | cons a as ih =>
      have ha : a.id ≠ id := by
        intro hEq
        exact hfresh (by simp [hEq])
      have has : id ∉ as.map QTask.id := by
        intro hmem
        exact hfresh (by simp [hmem])
      simp only [List.cons_append, updateQueueStatus, if_neg ha, List.append_eq]
      rw [ih has]

/-- The derived busy indicator is true exactly when some task is
waiting or running. -/
theorem queueBusy_iff (queue : List QTask) :
    queueBusy queue = true ↔
      ∃ t ∈ queue, t.status = QStatus.waiting ∨ t.status = QStatus.running := by
  simp only [queueBusy, List.any_eq_true, Bool.or_eq_true, beq_iff_eq]
  constructor
  · rintro ⟨t, ht, h | h⟩
    · exact ⟨t, ht, Or.inr h⟩
    · exact ⟨t, ht, Or.inl h⟩
  · rintro ⟨t, ht, h | h⟩
    · exact ⟨t, ht, Or.inr h⟩
    · exact ⟨t, ht, Or.inl h⟩

/-- C6: enqueueing appends a task with the given fresh identifier and
status waiting (keeping the id list duplicate-free when the id is
fresh), schedules exactly the two status transitions, to running at
now + 300 and to done at now + 2600; firing them in order moves the
task to running and then to done, so along waiting → running → done
the rank strictly increases and never regresses; the busy indicator
is true at enqueue and while running, is false once the only task is
done, and in general is true exactly when some task is waiting or
running. -/
theorem c6_addQueueItem_lifecycle (now : Nat) (freshId label : String) (queue : List QTask) :
    (addQueueItem now freshId label queue).1 =
      queue ++ [{ id := freshId, label := label, status := QStatus.waiting }] ∧
    (addQueueItem now freshId label queue).2 =
      [{ fireAt := now + 300, taskId := freshId, newStatus := QStatus.running },
       { fireAt := now + 2600, taskId := freshId, newStatus := QStatus.done }] ∧
    (freshId ∉ queue.map QTask.id → (queue.map QTask.id).Nodup →
      ((addQueueItem now freshId label queue).1.map QTask.id).Nodup) ∧
    queueBusy (addQueueItem now freshId label queue).1 = true ∧
    (freshId ∉ queue.map QTask.id →
      updateQueueStatus freshId QStatus.running (addQueueItem now freshId label queue).1 =
        queue ++ [{ id := freshId, label := label, status := QStatus.running }]) ∧
    (freshId ∉ queue.map QTask.id →
      queueBusy (updateQueueStatus freshId QStatus.running
        (addQueueItem now freshId label queue).1) = true) ∧
    (freshId ∉ queue.map QTask.id →
      updateQueueStatus freshId QStatus.done
        (updateQueueStatus freshId QStatus.running (addQueueItem now freshId label queue).1) =
        queue ++ [{ id := freshId, label := label, status := QStatus.done }]) ∧
    (queue = [] →
      queueBusy (updateQueueStatus freshId QStatus.done
        (updateQueueStatus freshId QStatus.running (addQueueItem now freshId label queue).1)) =
        false) ∧
    QStatus.waiting.rank < QStatus.running.rank ∧
    QStatus.running.rank < QStatus.done.rank := by
  have hq1 : (addQueueItem now freshId label queue).1 =
      queue ++ [{ id := freshId, label := label, status := QStatus.waiting }] := rfl
  have hrun : freshId ∉ queue.map QTask.id →
      updateQueueStatus freshId QStatus.running (addQueueItem now freshId label queue).1 =
        queue ++ [{ id := freshId, label := label, status := QStatus.running }] := by
    intro hfresh
    rw [hq1]
    exact updateQueueStatus_append_of_fresh freshId QStatus.running queue _ rfl hfresh
  have hdone : freshId ∉ queue.map QTask.id →
      updateQueueStatus freshId QStatus.done
        (updateQueueStatus freshId QStatus.running (addQueueItem now freshId label queue).1) =
        queue ++ [{ id := freshId, label := label, status := QStatus.done }] := by
    intro hfresh
    rw [hrun hfresh]
    exact updateQueueStatus_append_of_fresh freshId QStatus.done queue _ rfl hfresh
  refine ⟨hq1, rfl, ?_, ?_, hrun, ?_, hdone, ?_, by decide, by decide⟩
  · intro hfresh hnodup
    rw [hq1]
    simp [List.nodup_append, hnodup, hfresh]
  · rw [hq1]
    apply (queueBusy_iff _).mpr
    exact ⟨{ id := freshId, label := label, status := QStatus.waiting }, by simp, Or.inl rfl⟩
  · intro hfresh
    rw [hrun hfresh]
    apply (queueBusy_iff _).mpr
    exact ⟨{ id := freshId, label := label, status := QStatus.running }, by simp, Or.inr rfl⟩
  · intro hqueue
    subst hqueue
    have h := hdone (by simp)
    rw [h]
    simp [queueBusy]

/-- Witness for C6: a single task enqueued into an empty queue is
waiting and the indicator is on; firing the two scheduled transitions
leaves the lone task done and the indicator off. -/
theorem c6_addQueueItem_lifecycle_witness :
    queueBusy (addQueueItem 0 "task-1" "Run 1" []).1 = true ∧
    updateQueueStatus "task-1" QStatus.running (addQueueItem 0 "task-1" "Run 1" []).1 =
      [{ id := "task-1", label := "Run 1", status := QStatus.running }] ∧
    queueBusy (updateQueueStatus "task-1" QStatus.running
      (addQueueItem 0 "task-1" "Run 1" []).1) = true ∧
    updateQueueStatus "task-1" QStatus.done
      (updateQueueStatus "task-1" QStatus.running (addQueueItem 0 "task-1" "Run 1" []).1) =
      [{ id := "task-1", label := "Run 1", status := QStatus.done }] ∧
    queueBusy (updateQueueStatus "task-1" QStatus.done
      (updateQueueStatus "task-1" QStatus.running (addQueueItem 0 "task-1" "Run 1" []).1)) =
      false := by
  have h := c6_addQueueItem_lifecycle 0 "task-1" "Run 1" []
  refine ⟨h.2.2.2.1, ?_, h.2.2.2.2.2.1 (by simp), ?_, h.2.2.2.2.2.2.2.1 rfl⟩
  · have hr := h.2.2.2.2.1 (by simp)
    simpa using hr
  · have hd := h.2.2.2.2.2.2.1 (by simp)
    simpa using hd

/-- Folding additions of a mapped quantity equals the accumulator plus
the sum of the mapped list. -/
theorem foldl_add_map_sum {α M : Type} [AddCommMonoid M] (g : α → M) (l : List α) (n : M) :
    l.foldl (fun acc e => acc + g e) n = n + (l.map g).sum := by
  induction l generalizing n with
  | nil => simp
  | cons a as ih => simp [ih, add_assoc]

/-- The token-entry list built by a sequence of recordCall invocations
starting from the empty list (state.tokens starts as []). -/
def recordedTokens (calls : List (Nat × Nat)) : List TokenEntry :=
  calls.foldl (fun ts c => recordCall c.1 c.2 ts) []

/-- Recording is an append, so the fold over a call sequence is a map. -/
theorem recordedTokens_foldl_eq_map (calls : List (Nat × Nat)) (acc : List TokenEntry) :
    calls.foldl (fun ts c => recordCall c.1 c.2 ts) acc =
      acc ++ calls.map (fun c =>
        { inputTokens := c.1, outputTokens := c.2, cost := calculateCost c.1 c.2 }) := by
  induction calls generalizing acc with
  | nil => simp
  | cons c cs ih =>
      simp only [List.foldl_cons, List.map_cons]
      rw [ih]
      simp [recordCall]

/-- C7: for every sequence of recorded calls, the running totals
totalInput, totalOutput and totalCost accumulated by renderTokens are
the elementwise sums over all recorded entries of inputTokens,
outputTokens and cost(inputTokens, outputTokens).total, where
calculateCost returns the fixed linear per-token breakdown with total
the sum of inputCost and outputCost. -/
theorem c7_running_totals (calls : List (Nat × Nat)) :
    (∀ i o : Nat, calculateCost i o =
      { inputCost := (i : ℚ) * tokenPricingInput,
        outputCost := (o : ℚ) * tokenPricingOutput,
        total := (i : ℚ) * tokenPricingInput + (o : ℚ) * tokenPricingOutput }) ∧
    totalInput (recordedTokens calls) =
      ((recordedTokens calls).map TokenEntry.inputTokens).sum ∧
    totalOutput (recordedTokens calls) =
      ((recordedTokens calls).map TokenEntry.outputTokens).sum ∧
    totalCost (recordedTokens calls) =
      ((recordedTokens calls).map
        (fun e => (calculateCost e.inputTokens e.outputTokens).total)).sum := by
  refine ⟨fun i o => rfl, ?_, ?_, ?_⟩
  · simpa using foldl_add_map_sum TokenEntry.inputTokens (recordedTokens calls) 0
  · simpa using foldl_add_map_sum TokenEntry.outputTokens (recordedTokens calls) 0
  · have hfold := foldl_add_map_sum (fun e : TokenEntry => e.cost.total) (recordedTokens calls) 0
    have hmap : (recordedTokens calls).map (fun e : TokenEntry => e.cost.total) =
        (recordedTokens calls).map
          (fun e => (calculateCost e.inputTokens e.outputTokens).total) := by
      rw [recordedTokens, recordedTokens_foldl_eq_map]
      simp [List.map_map, Function.comp]
    calc totalCost (recordedTokens calls)
        = ((recordedTokens calls).map (fun e : TokenEntry => e.cost.total)).sum := by
          simpa using hfold
      _ = ((recordedTokens calls).map
            (fun e => (calculateCost e.inputTokens e.outputTokens).total)).sum := by
          rw [hmap]

/-- A sample stored workspace document carrying one old beat. -/
def sampleStored : StoredDoc := { beats := [JVal.jstr "old beat"] }

/-- C8: the POST /api/state handler rejects with a 400 response exactly
when the beats field of the body is missing or not an array, and then
the stored document is unchanged (the rejection happens before any
mutation); otherwise it unconditionally overwrites the whole stored
document with the given beats and answers 200. -/
theorem c8_postState_validation (body : List (String × JVal)) (stored : StoredDoc) :
    ((postStateHandler body stored).1.status = 400 ↔
      ¬ ∃ elems, body.lookup "beats" = some (JVal.jarr elems)) ∧
    ((postStateHandler body stored).1.status = 400 →
      (postStateHandler body stored).2 = stored) ∧
    (∀ elems, body.lookup "beats" = some (JVal.jarr elems) →
      (postStateHandler body stored).1.status = 200 ∧
      (postStateHandler body stored).2 = { beats := elems }) := by
  cases h : body.lookup "beats" with
  | none => simp [postStateHandler, h, jsTruthy, jsIsArray]
  | some val => cases val <;> simp [postStateHandler, h, jsTruthy, jsIsArray]

/-- Witness for C8: saving a well-formed body with an empty beats array
overwrites the sample document, while a body whose beats field is a
string is answered 400 and leaves the sample document untouched. -/
theorem c8_postState_validation_witness :
    (postStateHandler [("beats", JVal.jarr [])] sampleStored).1.status = 200 ∧
    (postStateHandler [("beats", JVal.jarr [])] sampleStored).2 = { beats := [] } ∧
    (postStateHandler [("beats", JVal.jstr "nope")] sampleStored).1.status = 400 ∧
    (postStateHandler [("beats", JVal.jstr "nope")] sampleStored).2 = sampleStored := by
  have hgood :=
    (c8_postState_validation [("beats", JVal.jarr [])] sampleStored).2.2 [] (by rfl)
  have hbad :=
    (c8_postState_validation [("beats", JVal.jstr "nope")] sampleStored).2.1 (by rfl)
  exact ⟨hgood.1, hgood.2, rfl, hbad⟩

/-- C9: the Select and Rollback handlers mutate only the beat's
selectedVersionId: its id, title, baseline, donor options and its full
versions list (length, order and every Version record) are unchanged. -/
theorem c9_selectClick_frame (beat : Beat) (version : Version) :
    (selectClick beat version).selectedVersionId = some version.id ∧
    (selectClick beat version).versions = beat.versions ∧
    (selectClick beat version).baseline = beat.baseline ∧
    (selectClick beat version).title = beat.title ∧
    (selectClick beat version).id = beat.id ∧
    (selectClick beat version).rejectedOptions = beat.rejectedOptions :=
  ⟨rfl, rfl, rfl, rfl, rfl, rfl⟩

/-- C10: readState returns the empty document whenever the state file
does not exist, and also whenever the file exists but is empty,
provided the external JSON.parse honours the fallback literal; a
non-empty file is handed to JSON.parse verbatim.  In the two empty
cases the read never fails. -/
theorem c10_readState_empty_cases (parse : String → Except String StoredDoc)
    (hparse : parse "\x7b\"beats\": []\x7d" = Except.ok { beats := [] }) :
    readState parse none = Except.ok { beats := [] } ∧
    readState parse (some "") = Except.ok { beats := [] } ∧
    (∀ raw, raw ≠ "" → readState parse (some raw) = parse raw) := by
  refine ⟨rfl, ?_, ?_⟩
  · simpa [readState] using hparse
  · intro raw hraw
    simp [readState, hraw]

/-- A stand-in for JSON.parse that recognises only the fallback
literal and fails on everything else. -/
def parseStub : String → Except String StoredDoc :=
  fun raw =>
    if raw = "\x7b\"beats\": []\x7d" then Except.ok { beats := [] }
    else Except.error "unexpected document"

/-- Witness for C10: with the stand-in parser, a missing file and an
empty file both read as the empty document, and a non-empty file goes
to the parser verbatim. -/
theorem c10_readState_empty_cases_witness :
    readState parseStub none = Except.ok { beats := [] } ∧
    readState parseStub (some "") = Except.ok { beats := [] } ∧
    readState parseStub (some "garbage") = parseStub "garbage" :=
  ⟨(c10_readState_empty_cases parseStub rfl).1,
   (c10_readState_empty_cases parseStub rfl).2.1,
   (c10_readState_empty_cases parseStub rfl).2.2 "garbage" (by decide)⟩
